import Mathlib

/-!
Verification of the search router of a portfolio REST API.

The program under study is an Express router with two endpoints,
`GET /api/search` (basic search) and `GET /api/search/advanced`
(advanced search with `type`, `category` and `limit` filters), backed
by a MySQL store holding four searchable tables (`profile`, `skills`,
`projects`, `work_experience`).

The embedding below models:
  * the rows of the four tables (nullable columns as `Option`),
  * SQL `LIKE` with a pattern of shape percent-query-percent as
    case-insensitive substring containment,
  * JavaScript string and array primitives used by the handlers
    (`trim`, `toLowerCase`, `indexOf`, `parseInt`, `slice`),
  * both request handlers as pure functions from the query parameters
    and the database state to a response paired with the ordered list
    of database queries the handler issues.

Query parameters are `Option String` (`none` = absent); JavaScript
truthiness of a string parameter is `none`/empty ↦ false.
-/

namespace Portfolio

/-- A row of the `profile` table (searched columns only). -/
structure ProfileRow where
  id : Nat
  name : String
  email : String
  education : Option String
deriving Repr, DecidableEq

/-- A row of the `skills` table. `proficiency` and `category` are nullable. -/
structure SkillRow where
  id : Nat
  name : String
  proficiency : Option Int
  category : Option String
deriving Repr, DecidableEq

/-- A row of the `projects` table (searched columns only). -/
structure ProjectRow where
  id : Nat
  title : String
  description : Option String
deriving Repr, DecidableEq

/-- A row of the `work_experience` table (searched columns only). -/
structure WorkRow where
  id : Nat
  company : String
  position : String
  description : Option String
deriving Repr, DecidableEq

/-- The relational store: the four searchable tables. -/
structure Db where
  profile : List ProfileRow
  skills : List SkillRow
  projects : List ProjectRow
  work_experience : List WorkRow
deriving Repr, DecidableEq

/-- The common projected row shape
`SELECT <type> as type, <title>, <description>, <category>, id`.
`description` and `category` are nullable in SQL, hence `Option`. -/
structure SearchRow where
  type : String
  title : String
  description : Option String
  category : Option String
  id : Nat
deriving Repr, DecidableEq

/-- The four entity kinds; used to record which database queries a
handler issues, in order. -/
inductive Ety where
  | profile
  | skill
  | project
  | work
deriving Repr, DecidableEq

/-! ### JavaScript / SQL string primitives -/

/-- `String.prototype.toLowerCase`, modelled per character. -/
def lc (s : String) : String := String.mk (s.data.map Char.toLower)

/-- Drop whitespace from both ends of a character list. -/
def trimChars (l : List Char) : List Char :=
  ((l.dropWhile Char.isWhitespace).reverse.dropWhile Char.isWhitespace).reverse

/-- `String.prototype.trim`. -/
def jsTrim (s : String) : String := String.mk (trimChars s.data)

/-- Whether `pat` occurs as a contiguous sublist of the second list. -/
def containsSub (pat : List Char) : List Char → Bool
  | [] => List.isPrefixOf pat []
  | c :: r => List.isPrefixOf pat (c :: r) || containsSub pat r

/-- SQL `col LIKE '%term%'` under a case-insensitive collation:
case-insensitive substring containment of the trimmed query. -/
def likeMatch (term s : String) : Bool :=
  containsSub (lc term).data (lc s).data

/-- `LIKE` on a nullable column: `NULL LIKE p` is not true. -/
def likeOpt (term : String) : Option String → Bool
  | none => false
  | some s => likeMatch term s

/-- First index at which `pat` occurs in the list starting from
accumulator `i`, `-1` when absent (JavaScript `indexOf` semantics). -/
def idxAux (pat : List Char) : List Char → Nat → Int
  | [], i => if List.isPrefixOf pat [] then (i : Int) else -1
  | c :: r, i =>
    if List.isPrefixOf pat (c :: r) then (i : Int) else idxAux pat r (i + 1)

/-- `s.indexOf(pat)` for strings. -/
def jsIndexOf (s pat : String) : Int := idxAux pat.data s.data 0

/-- Numeric value of a digit run. -/
def digitsToNat (ds : List Char) : Nat :=
  ds.foldl (fun acc c => acc * 10 + (c.toNat - 48)) 0

/-- `parseInt(s)` in radix 10: skip leading whitespace, optional sign,
longest digit prefix; `none` models `NaN` (no digits found). -/
def parseIntJS (s : String) : Option Int :=
  let cs := s.data.dropWhile Char.isWhitespace
  match cs with
  | '-' :: r =>
    let ds := r.takeWhile Char.isDigit
    if ds.isEmpty then none else some (-(digitsToNat ds : Int))
  | '+' :: r =>
    let ds := r.takeWhile Char.isDigit
    if ds.isEmpty then none else some ((digitsToNat ds : Int))
  | _ =>
    let ds := cs.takeWhile Char.isDigit
    if ds.isEmpty then none else some ((digitsToNat ds : Int))

/-- `arr.slice(0, e)` where `e` is the result of `parseInt`:
`NaN` converts to `0` (empty result), a negative end counts from the
end of the array, otherwise take the first `e` elements. -/
def jsSlice {α : Type} (l : List α) (e : Option Int) : List α :=
  match e with
  | none => []
  | some n => if n < 0 then l.take ((l.length : Int) + n).toNat else l.take n.toNat

/-- JavaScript falsiness of an optional string parameter:
absent or empty. -/
def jsFalsy : Option String → Bool
  | none => true
  | some s => s == ""

/-- JavaScript truthiness of an optional string parameter. -/
def truthy (o : Option String) : Bool := !(jsFalsy o)

/-- The shared validation of both handlers:
`!query || query.trim().length < 2`. -/
def queryInvalid (q : Option String) : Bool :=
  jsFalsy q || (jsTrim (q.getD "")).length < 2

/-! ### Per-entity queries

Each `SELECT` is a filter over its table followed by a projection into
the common `SearchRow` shape. -/

/-- `WHERE name LIKE ? OR email LIKE ? OR education LIKE ?`. -/
def profileWhere (term : String) (p : ProfileRow) : Bool :=
  likeMatch term p.name || likeMatch term p.email || likeOpt term p.education

/-- Projection of a profile row:
`'profile' as type, name as title, email as description,
'Profile Information' as category, id`. -/
def projProfile (p : ProfileRow) : SearchRow :=
  ⟨"profile", p.name, some p.email, some "Profile Information", p.id⟩

def profileSearch (term : String) (db : Db) : List SearchRow :=
  (db.profile.filter (profileWhere term)).map projProfile

/-- The `CASE` expression mapping proficiency to a description;
a `NULL` proficiency falls through to the `ELSE` arm. -/
def profDesc : Option Int → String
  | some 5 => "Expert level"
  | some 4 => "Advanced level"
  | some 3 => "Intermediate level"
  | some 2 => "Beginner level"
  | _ => "Basic level"

/-- `WHERE name LIKE ? OR category LIKE ?` (basic search). -/
def skillWhere (term : String) (s : SkillRow) : Bool :=
  likeMatch term s.name || likeOpt term s.category

/-- Projection of a skill row: `'skill' as type, name as title,
CASE ... as description, category, id`. -/
def projSkill (s : SkillRow) : SearchRow :=
  ⟨"skill", s.name, some (profDesc s.proficiency), s.category, s.id⟩

def skillSearch (term : String) (db : Db) : List SearchRow :=
  (db.skills.filter (skillWhere term)).map projSkill

/-- The advanced-search skill `WHERE` clause. When a category filter is
supplied the source appends `AND category = ?` to
`name LIKE ? OR category LIKE ?`; SQL gives `AND` higher precedence
than `OR`, so the clause parses as
`name LIKE ? OR (category LIKE ? AND category = ?)`. -/
def skillWhereAdv (term : String) (category : Option String) (s : SkillRow) : Bool :=
  if truthy category then
    likeMatch term s.name ||
      (likeOpt term s.category && s.category == some (category.getD ""))
  else
    likeMatch term s.name || likeOpt term s.category

def skillSearchAdv (term : String) (category : Option String) (db : Db) : List SearchRow :=
  (db.skills.filter (skillWhereAdv term category)).map projSkill

/-- `WHERE title LIKE ? OR description LIKE ?`. -/
def projectWhere (term : String) (p : ProjectRow) : Bool :=
  likeMatch term p.title || likeOpt term p.description

/-- Projection of a project row:
`'project' as type, title, description, 'Project' as category, id`. -/
def projProject (p : ProjectRow) : SearchRow :=
  ⟨"project", p.title, p.description, some "Project", p.id⟩

def projectSearch (term : String) (db : Db) : List SearchRow :=
  (db.projects.filter (projectWhere term)).map projProject

/-- `WHERE company LIKE ? OR position LIKE ? OR description LIKE ?`. -/
def workWhere (term : String) (w : WorkRow) : Bool :=
  likeMatch term w.company || likeMatch term w.position || likeOpt term w.description

/-- Projection of a work row: `'work' as type, position as title,
company || ' - ' || COALESCE(description, '') as description,
'Work Experience' as category, id`. -/
def projWork (w : WorkRow) : SearchRow :=
  ⟨"work", w.position, some (w.company ++ " - " ++ w.description.getD ""),
    some "Work Experience", w.id⟩

def workSearch (term : String) (db : Db) : List SearchRow :=
  (db.work_experience.filter (workWhere term)).map projWork

/-! ### Basic search: merge, relevance sort, handler -/

/-- The pre-sort merged sequence of `GET /api/search`: the four result
sequences spread into one array in the fixed source order. -/
def basicMerged (term : String) (db : Db) : List SearchRow :=
  profileSearch term db ++ skillSearch term db ++
    projectSearch term db ++ workSearch term db

/-- The comparator's exact-match test:
`row.title.toLowerCase() === query.toLowerCase()`; note it receives the
raw `query`, not the trimmed search term. -/
def isExact (query : String) (r : SearchRow) : Bool :=
  lc r.title == lc query

/-- `row.title.toLowerCase().indexOf(query.toLowerCase())`. -/
def titleIdx (query : String) (r : SearchRow) : Int :=
  jsIndexOf (lc r.title) (lc query)

/-- The relevance comparator passed to `Array.prototype.sort`. -/
def searchCmp (query : String) (a b : SearchRow) : Int :=
  if isExact query a && !(isExact query b) then -1
  else if !(isExact query a) && isExact query b then 1
  else titleIdx query a - titleIdx query b

/-- Insert a row into a list already ordered by the comparator. -/
def insertRow (query : String) (r : SearchRow) : List SearchRow → List SearchRow
  | [] => [r]
  | x :: xs =>
    if searchCmp query r x ≤ 0 then r :: x :: xs else x :: insertRow query r xs

/-- `Array.prototype.sort` with the relevance comparator, modelled as a
comparison sort (the ECMAScript result is some ordering consistent with
the comparator; every claim below uses only comparator facts and the
permutation property). -/
def sortRows (query : String) : List SearchRow → List SearchRow
  | [] => []
  | x :: xs => insertRow query x (sortRows query xs)

/-- Response of the basic endpoint. -/
inductive Resp where
  | badRequest (error message : String)
  | ok (query : String) (count : Nat) (data : List SearchRow)
deriving Repr, DecidableEq

/-- The sorted result array of the basic endpoint (`query` is the raw
parameter; the `LIKE` pattern uses its trimmed form). -/
def basicSorted (query : String) (db : Db) : List SearchRow :=
  sortRows query (basicMerged (jsTrim query) db)

/-- `GET /api/search`: the response paired with the ordered list of
database queries issued. -/
def basicSearch (q : Option String) (db : Db) : Resp × List Ety :=
  if queryInvalid q then
    (.badRequest "Invalid search query"
      "Search query must be at least 2 characters long", [])
  else
    (.ok (jsTrim (q.getD "")) (basicSorted (q.getD "") db).length
      (basicSorted (q.getD "") db),
     [Ety.profile, Ety.skill, Ety.project, Ety.work])

/-! ### Advanced search -/

/-- Response of the advanced endpoint. -/
inductive AdvResp where
  | badRequest (error message : String)
  | ok (query type category : String) (count : Nat) (data : List SearchRow)
deriving Repr, DecidableEq

def validTypes : List String := ["profile", "skill", "project", "work"]

/-- `!type || type === 'profile'`. -/
def profCond (type : Option String) : Bool :=
  !(truthy type) || type == some "profile"

/-- `!type || type === 'skill'`. -/
def skillCond (type : Option String) : Bool :=
  !(truthy type) || type == some "skill"

/-- `!type || type === 'project'`. -/
def projCond (type : Option String) : Bool :=
  !(truthy type) || type == some "project"

/-- `!type || type === 'work'`. -/
def workCond (type : Option String) : Bool :=
  !(truthy type) || type == some "work"

/-- The database queries the advanced handler issues, in source order:
one per branch whose condition holds. -/
def advQueries (type : Option String) : List Ety :=
  (if profCond type then [Ety.profile] else []) ++
  (if skillCond type then [Ety.skill] else []) ++
  (if projCond type then [Ety.project] else []) ++
  (if workCond type then [Ety.work] else [])

/-- The merged (unranked) result sequence of the advanced handler
before truncation. -/
def advResults (term : String) (type category : Option String) (db : Db) :
    List SearchRow :=
  (if profCond type then profileSearch term db else []) ++
  (if skillCond type then skillSearchAdv term category db else []) ++
  (if projCond type then projectSearch term db else []) ++
  (if workCond type then workSearch term db else [])

/-- `results.slice(0, parseInt(limit))` with the destructuring default
`limit = 20` (and `parseInt(20)` parsing the decimal rendering). -/
def advLimited (q type category limit : Option String) (db : Db) :
    List SearchRow :=
  jsSlice (advResults (jsTrim (q.getD "")) type category db)
    (parseIntJS (limit.getD "20"))

/-- The 200 response of the advanced handler. -/
def advOk (q type category limit : Option String) (db : Db) : AdvResp :=
  .ok (jsTrim (q.getD ""))
    (if truthy type then type.getD "" else "all")
    (if truthy category then category.getD "" else "all")
    (advLimited q type category limit db).length
    (advLimited q type category limit db)

/-- `GET /api/search/advanced`: the response paired with the ordered
list of database queries issued. -/
def advancedSearch (q type category limit : Option String) (db : Db) :
    AdvResp × List Ety :=
  if queryInvalid q then
    (.badRequest "Invalid search query"
      "Search query must be at least 2 characters long", [])
  else if truthy type && !(validTypes.contains (type.getD "")) then
    (.badRequest "Invalid type filter"
      "Type must be one of: profile, skill, project, work", [])
  else
    (advOk q type category limit db, advQueries type)

/-- HTTP status of an advanced response. -/
def advStatus : AdvResp → Nat
  | .badRequest _ _ => 400
  | .ok _ _ _ _ _ => 200

/-- The `data` array of an advanced response (empty on an error). -/
def advData : AdvResp → List SearchRow
  | .badRequest _ _ => []
  | .ok _ _ _ _ d => d

/-- The `count` field of an advanced response (zero on an error). -/
def advCount : AdvResp → Nat
  | .badRequest _ _ => 0
  | .ok _ _ _ n _ => n

/-- A result row's `type` tag is one of the four entity kinds and its
`id` resolves to an existing row of that entity's table. -/
def rowResolves (db : Db) (r : SearchRow) : Prop :=
  (r.type = "profile" ∧ ∃ p ∈ db.profile, p.id = r.id) ∨
  (r.type = "skill" ∧ ∃ s ∈ db.skills, s.id = r.id) ∨
  (r.type = "project" ∧ ∃ p ∈ db.projects, p.id = r.id) ∨
  (r.type = "work" ∧ ∃ w ∈ db.work_experience, w.id = r.id)

/-- The empty store. -/
def emptyDb : Db := ⟨[], [], [], []⟩

/-- Store with one skill whose name matches the query pattern but whose
category differs from a requested category filter. -/
def dbC1 : Db := ⟨[], [⟨1, "JavaScript", some 4, some "Frontend"⟩], [], []⟩

/-- Store with one project titled "React". -/
def dbW : Db := ⟨[], [], [⟨1, "React", some "library"⟩], []⟩

/-! ### Helper lemmas -/

theorem lc_length (s : String) : (lc s).length = s.length := by
  show (s.data.map Char.toLower).length = s.data.length
  exact List.length_map _ _

theorem insertRow_perm (query : String) (r : SearchRow) (l : List SearchRow) :
    (insertRow query r l).Perm (r :: l) := by
  induction l with
  | nil => exact List.Perm.refl _
  | cons x xs ih =>
    by_cases h : searchCmp query r x ≤ 0
    · simp only [insertRow, if_pos h]
      exact List.Perm.refl _
    · simp only [insertRow, if_neg h]
      exact (ih.cons x).trans (List.Perm.swap r x xs)

theorem sortRows_perm (query : String) (l : List SearchRow) :
    (sortRows query l).Perm l := by
  induction l with
  | nil => exact List.Perm.refl _
  | cons x xs ih => exact (insertRow_perm query x (sortRows query xs)).trans (ih.cons x)

theorem mem_of_ite_nil {α : Type} {c : Prop} [Decidable c] {l : List α} {r : α}
    (h : r ∈ if c then l else []) : r ∈ l := by
  split at h
  · exact h
  · exact absurd h (List.not_mem_nil r)

theorem jsSlice_subset {α : Type} (l : List α) (e : Option Int) {r : α}
    (h : r ∈ jsSlice l e) : r ∈ l := by
  cases e with
  | none =>
    simp only [jsSlice] at h
    exact absurd h (List.not_mem_nil r)
  | some n =>
    simp only [jsSlice] at h
    split at h <;> exact (List.take_sublist _ _).subset h

theorem mem_profileSearch_resolves {term : String} {db : Db} {r : SearchRow}
    (h : r ∈ profileSearch term db) : rowResolves db r := by
  simp only [profileSearch, List.mem_map, List.mem_filter] at h
  obtain ⟨p, ⟨hp, _⟩, rfl⟩ := h
  exact Or.inl ⟨rfl, p, hp, rfl⟩

theorem mem_skillSearch_resolves {term : String} {db : Db} {r : SearchRow}
    (h : r ∈ skillSearch term db) : rowResolves db r := by
  simp only [skillSearch, List.mem_map, List.mem_filter] at h
  obtain ⟨s, ⟨hs, _⟩, rfl⟩ := h
  exact Or.inr (Or.inl ⟨rfl, s, hs, rfl⟩)

theorem mem_skillSearchAdv_resolves {term : String} {c : Option String} {db : Db}
    {r : SearchRow} (h : r ∈ skillSearchAdv term c db) : rowResolves db r := by
  simp only [skillSearchAdv, List.mem_map, List.mem_filter] at h
  obtain ⟨s, ⟨hs, _⟩, rfl⟩ := h
  exact Or.inr (Or.inl ⟨rfl, s, hs, rfl⟩)

theorem mem_projectSearch_resolves {term : String} {db : Db} {r : SearchRow}
    (h : r ∈ projectSearch term db) : rowResolves db r := by
  simp only [projectSearch, List.mem_map, List.mem_filter] at h
  obtain ⟨p, ⟨hp, _⟩, rfl⟩ := h
  exact Or.inr (Or.inr (Or.inl ⟨rfl, p, hp, rfl⟩))

theorem mem_workSearch_resolves {term : String} {db : Db} {r : SearchRow}
    (h : r ∈ workSearch term db) : rowResolves db r := by
  simp only [workSearch, List.mem_map, List.mem_filter] at h
  obtain ⟨w, ⟨hw, _⟩, rfl⟩ := h
  exact Or.inr (Or.inr (Or.inr ⟨rfl, w, hw, rfl⟩))

theorem mem_basicMerged_resolves {term : String} {db : Db} {r : SearchRow}
    (h : r ∈ basicMerged term db) : rowResolves db r := by
  simp only [basicMerged, List.mem_append] at h
  rcases h with ((h | h) | h) | h
  · exact mem_profileSearch_resolves h
  · exact mem_skillSearch_resolves h
  · exact mem_projectSearch_resolves h
  · exact mem_workSearch_resolves h

theorem mem_advResults_resolves {term : String} {t c : Option String} {db : Db}
    {r : SearchRow} (h : r ∈ advResults term t c db) : rowResolves db r := by
  simp only [advResults, List.mem_append] at h
  rcases h with ((h | h) | h) | h
  · exact mem_profileSearch_resolves (mem_of_ite_nil h)
  · exact mem_skillSearchAdv_resolves (mem_of_ite_nil h)
  · exact mem_projectSearch_resolves (mem_of_ite_nil h)
  · exact mem_workSearch_resolves (mem_of_ite_nil h)

theorem advancedSearch_fst (q : String) (t c l : Option String) (db : Db)
    (hq : queryInvalid (some q) = false)
    (ht : (truthy t && !(validTypes.contains (t.getD ""))) = false) :
    (advancedSearch (some q) t c l db).1 = advOk (some q) t c l db := by
  have hc : ¬((truthy t && !(validTypes.contains (t.getD ""))) = true) := by
    intro hcon
    rw [ht] at hcon
    exact Bool.false_ne_true hcon
  unfold advancedSearch
  rw [if_neg (by simp [hq]), if_neg hc]

theorem advancedSearch_snd (q : String) (t c l : Option String) (db : Db)
    (hq : queryInvalid (some q) = false)
    (ht : (truthy t && !(validTypes.contains (t.getD ""))) = false) :
    (advancedSearch (some q) t c l db).2 = advQueries t := by
  have hc : ¬((truthy t && !(validTypes.contains (t.getD ""))) = true) := by
    intro hcon
    rw [ht] at hcon
    exact Bool.false_ne_true hcon
  unfold advancedSearch
  rw [if_neg (by simp [hq]), if_neg hc]

theorem trimChars_eq_self_of_length (l : List Char)
    (h : (trimChars l).length = l.length) : trimChars l = l := by
  have e1 : (l.dropWhile Char.isWhitespace).length ≤ l.length :=
    (List.dropWhile_suffix _).length_le
  have e2 : ((l.dropWhile Char.isWhitespace).reverse.dropWhile Char.isWhitespace).length ≤
      (l.dropWhile Char.isWhitespace).reverse.length :=
    (List.dropWhile_suffix _).length_le
  have hlen : (trimChars l).length =
      ((l.dropWhile Char.isWhitespace).reverse.dropWhile Char.isWhitespace).length := by
    simp [trimChars]
  have hrev : (l.dropWhile Char.isWhitespace).reverse.length =
      (l.dropWhile Char.isWhitespace).length := by simp
  have h2 : ((l.dropWhile Char.isWhitespace).reverse.dropWhile Char.isWhitespace).length =
      (l.dropWhile Char.isWhitespace).reverse.length := by omega
  have h2e : (l.dropWhile Char.isWhitespace).reverse.dropWhile Char.isWhitespace =
      (l.dropWhile Char.isWhitespace).reverse :=
    (List.dropWhile_suffix _).eq_of_length h2
  have h1 : (l.dropWhile Char.isWhitespace).length = l.length := by omega
  have h1e : l.dropWhile Char.isWhitespace = l :=
    (List.dropWhile_suffix _).eq_of_length h1
  calc trimChars l
      = (l.dropWhile Char.isWhitespace).reverse.reverse := by rw [trimChars, h2e]
    _ = l.dropWhile Char.isWhitespace := List.reverse_reverse _
    _ = l := h1e

theorem jsTrim_eq_of_length (q : String) (h : (jsTrim q).length = q.length) :
    jsTrim q = q := by
  have he : trimChars q.data = q.data := trimChars_eq_self_of_length q.data h
  show String.mk (trimChars q.data) = q
  rw [he]

theorem jsTrim_length_le (q : String) : (jsTrim q).length ≤ q.length := by
  show (trimChars q.data).length ≤ q.data.length
  have e1 : (q.data.dropWhile Char.isWhitespace).length ≤ q.data.length :=
    (List.dropWhile_suffix _).length_le
  have e2 : ((q.data.dropWhile Char.isWhitespace).reverse.dropWhile Char.isWhitespace).length ≤
      (q.data.dropWhile Char.isWhitespace).reverse.length :=
    (List.dropWhile_suffix _).length_le
  have hlen : (trimChars q.data).length =
      ((q.data.dropWhile Char.isWhitespace).reverse.dropWhile Char.isWhitespace).length := by
    simp [trimChars]
  have hrev : (q.data.dropWhile Char.isWhitespace).reverse.length =
      (q.data.dropWhile Char.isWhitespace).length := by simp
  omega

theorem jsTrim_ne_length_lt (q : String) (h : jsTrim q ≠ q) :
    (jsTrim q).length < q.length := by
  rcases lt_or_eq_of_le (jsTrim_length_le q) with hlt | heq
  · exact hlt
  · exact absurd (jsTrim_eq_of_length q heq) h

/-! ### Claim theorems -/

/-- C1. The claim states that for type=skill with a category filter,
only skill rows whose category equals the filter are returned. The code
violates it: the generated SQL `WHERE name LIKE ? OR category LIKE ?
AND category = ?` parses with `AND` binding tighter than `OR`, so a
skill whose name matches the pattern is returned regardless of its
category. At the failing input (one skill named "JavaScript" with
category "Frontend", query "Script", type=skill, category=Backend) the
handler returns that row even though its category is not "Backend". -/
theorem category_filter_bypassed_by_name_match :
    advancedSearch (some "Script") (some "skill") (some "Backend") none dbC1 =
      (.ok "Script" "skill" "Backend" 1
        [⟨"skill", "JavaScript", some "Advanced level", some "Frontend", 1⟩],
       [Ety.skill]) := by decide

/-- C2. The sort comparator places an entry whose title
case-insensitively equals the query strictly before one that does not;
among entries with equal exact-match status it returns the difference
of the first-occurrence indices of the lowercased query in the
lowercased titles (so an earlier occurrence sorts first); and for query
"React" an entry titled exactly "React" compares strictly before one
titled "React Native". -/
theorem comparator_exact_then_index (q : String) (a b : SearchRow) :
    (isExact q a = true → isExact q b = false → searchCmp q a b < 0) ∧
    (isExact q a = isExact q b →
      searchCmp q a b = titleIdx q a - titleIdx q b) ∧
    searchCmp "React"
      ⟨"project", "React", some "A React library", some "Project", 1⟩
      ⟨"project", "React Native", some "Mobile framework", some "Project", 2⟩ < 0 := by
  refine ⟨?_, ?_, ?_⟩
  · intro h1 h2
    simp [searchCmp, h1, h2]
  · intro h
    cases hb : isExact q b
    · rw [hb] at h
      simp [searchCmp, h, hb]
    · rw [hb] at h
      simp [searchCmp, h, hb]
  · decide

/-- Witness for C2 at concrete inputs: an exact-match title sorts
strictly before a non-exact one, and two non-exact titles compare by
index difference. -/
theorem comparator_exact_then_index_witness :
    searchCmp "ab" ⟨"skill", "ab", none, none, 1⟩ ⟨"skill", "abc", none, none, 2⟩ < 0 ∧
    searchCmp "ab" ⟨"skill", "xab", none, none, 1⟩ ⟨"skill", "ab c", none, none, 2⟩ =
      titleIdx "ab" ⟨"skill", "xab", none, none, 1⟩ -
        titleIdx "ab" ⟨"skill", "ab c", none, none, 2⟩ :=
  ⟨(comparator_exact_then_index "ab" ⟨"skill", "ab", none, none, 1⟩
      ⟨"skill", "abc", none, none, 2⟩).1 (by decide) (by decide),
   (comparator_exact_then_index "ab" ⟨"skill", "xab", none, none, 1⟩
      ⟨"skill", "ab c", none, none, 2⟩).2.1 (by decide)⟩

/-- C3. When the `q` parameter is missing or its trimmed length is
below 2, both endpoints return the 400 validation response and issue
zero database queries. -/
theorem short_query_rejected (q : Option String) (t c l : Option String) (db : Db)
    (h : q = none ∨ ∃ s, q = some s ∧ (jsTrim s).length < 2) :
    basicSearch q db =
      (.badRequest "Invalid search query"
        "Search query must be at least 2 characters long", []) ∧
    advancedSearch q t c l db =
      (.badRequest "Invalid search query"
        "Search query must be at least 2 characters long", []) := by
  have hinv : queryInvalid q = true := by
    rcases h with rfl | ⟨s, rfl, hs⟩
    · rfl
    · simp [queryInvalid, hs]
  exact ⟨by simp [basicSearch, hinv], by simp [advancedSearch, hinv]⟩

/-- Witness for C3 at the one-character query "a". -/
theorem short_query_rejected_witness :
    basicSearch (some "a") emptyDb =
      (.badRequest "Invalid search query"
        "Search query must be at least 2 characters long", []) ∧
    advancedSearch (some "a") none none none emptyDb =
      (.badRequest "Invalid search query"
        "Search query must be at least 2 characters long", []) :=
  short_query_rejected (some "a") none none none emptyDb
    (Or.inr ⟨"a", rfl, by decide⟩)

/-- C4. With a valid `type` filter exactly the one query for that
entity type is issued, and with `type` absent all four queries are
issued, in the fixed source order. -/
theorem type_filter_query_fanout (q : String) (c l : Option String) (db : Db)
    (hq : queryInvalid (some q) = false) :
    (advancedSearch (some q) (some "profile") c l db).2 = [Ety.profile] ∧
    (advancedSearch (some q) (some "skill") c l db).2 = [Ety.skill] ∧
    (advancedSearch (some q) (some "project") c l db).2 = [Ety.project] ∧
    (advancedSearch (some q) (some "work") c l db).2 = [Ety.work] ∧
    (advancedSearch (some q) none c l db).2 =
      [Ety.profile, Ety.skill, Ety.project, Ety.work] := by
  refine ⟨?_, ?_, ?_, ?_, ?_⟩ <;>
    rw [advancedSearch_snd _ _ _ _ _ hq (by decide)] <;> decide

/-- Witness for C4: a valid two-character query with each type value. -/
theorem type_filter_query_fanout_witness :
    (advancedSearch (some "React") (some "skill") none none emptyDb).2 =
      [Ety.skill] ∧
    (advancedSearch (some "React") none none none emptyDb).2 =
      [Ety.profile, Ety.skill, Ety.project, Ety.work] :=
  ⟨(type_filter_query_fanout "React" none none emptyDb (by decide)).2.1,
   (type_filter_query_fanout "React" none none emptyDb (by decide)).2.2.2.2⟩

/-- C5. The advanced endpoint's `data` is the first-N truncation of the
merged, unranked result sequence: with `limit` absent N is 20; with a
`limit` that parses to a nonnegative integer n the data is the first n
entries; and with limit=1 and at least one match exactly one entry is
returned. -/
theorem limit_truncates_unranked (q : String) (t c : Option String) (db : Db)
    (hq : queryInvalid (some q) = false)
    (ht : (truthy t && !(validTypes.contains (t.getD ""))) = false) :
    advData (advancedSearch (some q) t c none db).1 =
      (advResults (jsTrim q) t c db).take 20 ∧
    (∀ s : String, ∀ n : Int, parseIntJS s = some n → 0 ≤ n →
      advData (advancedSearch (some q) t c (some s) db).1 =
        (advResults (jsTrim q) t c db).take n.toNat) ∧
    (advResults (jsTrim q) t c db ≠ [] →
      (advData (advancedSearch (some q) t c (some "1") db).1).length = 1) := by
  refine ⟨?_, ?_, ?_⟩
  · rw [advancedSearch_fst q t c none db hq ht]
    have h20 : parseIntJS "20" = some 20 := by decide
    simp [advOk, advData, advLimited, h20, jsSlice]
  · intro s n hs hn
    rw [advancedSearch_fst q t c (some s) db hq ht]
    have hnn : ¬ n < 0 := by omega
    simp [advOk, advData, advLimited, hs, jsSlice, hnn]
  · intro hne
    rw [advancedSearch_fst q t c (some "1") db hq ht]
    have h1 : parseIntJS "1" = some 1 := by decide
    simp [advOk, advData, advLimited, h1, jsSlice, List.length_take]
    have hpos : 0 < (advResults (jsTrim q) t c db).length :=
      List.length_pos.mpr hne
    omega

/-- Witness for C5 on a store with one matching project: default limit
takes the first 20 entries, and limit=1 returns exactly one entry. -/
theorem limit_truncates_unranked_witness :
    advData (advancedSearch (some "React") none none none dbW).1 =
      (advResults (jsTrim "React") none none dbW).take 20 ∧
    (advData (advancedSearch (some "React") none none (some "1") dbW).1).length = 1 :=
  ⟨(limit_truncates_unranked "React" none none dbW (by decide) (by decide)).1,
   (limit_truncates_unranked "React" none none dbW (by decide) (by decide)).2.2
     (by decide)⟩

/-- C6 counterexample. The claim says every request whose `type`
parameter is present and not one of the four valid values is rejected
with 400 and no database query. With `type` present but equal to the
empty string (a value outside the valid set) the handler instead
responds 200 and issues all four queries: the truthiness guard
`type && !valid.includes(type)` skips validation for the empty
string. -/
theorem invalid_type_empty_not_rejected :
    advStatus (advancedSearch (some "React") (some "") none none emptyDb).1 = 200 ∧
    (advancedSearch (some "React") (some "") none none emptyDb).2 ≠ [] := by
  decide

/-- C6 amended. For every request whose `type` parameter is present,
nonempty, and not one of profile, skill, project, work, the endpoint
responds 400 with the message listing the four valid values and issues
no database query (a present but empty `type` is treated as absent). -/
theorem invalid_type_rejected (q t : String) (c l : Option String) (db : Db)
    (hq : queryInvalid (some q) = false) (ht : t ≠ "")
    (hv : validTypes.contains t = false) :
    advancedSearch (some q) (some t) c l db =
      (.badRequest "Invalid type filter"
        "Type must be one of: profile, skill, project, work", []) := by
  have hnm : t ∉ validTypes := by simpa using hv
  have htc : (truthy (some t) && !(validTypes.contains ((some t).getD ""))) = true := by
    simp [truthy, jsFalsy, ht, hv, hnm]
  unfold advancedSearch
  rw [if_neg (by simp [hq]), if_pos htc]

/-- Witness for the amended C6 at type="bogus". -/
theorem invalid_type_rejected_witness :
    advancedSearch (some "React") (some "bogus") none none emptyDb =
      (.badRequest "Invalid type filter"
        "Type must be one of: profile, skill, project, work", []) :=
  invalid_type_rejected "React" "bogus" none none emptyDb
    (by decide) (by decide) (by decide)

/-- C7. The basic search's pre-sort merged sequence is the
concatenation of the four per-entity result sequences in the fixed
order profile, skill, project, work, and each per-entity sequence is an
order-preserving selection (a sublist) of its table's projected rows. -/
theorem merge_is_ordered_concatenation (term : String) (db : Db) :
    basicMerged term db =
      profileSearch term db ++ skillSearch term db ++
        projectSearch term db ++ workSearch term db ∧
    List.Sublist (profileSearch term db) (db.profile.map projProfile) ∧
    List.Sublist (skillSearch term db) (db.skills.map projSkill) ∧
    List.Sublist (projectSearch term db) (db.projects.map projProject) ∧
    List.Sublist (workSearch term db) (db.work_experience.map projWork) :=
  ⟨rfl,
   List.Sublist.map projProfile (List.filter_sublist db.profile),
   List.Sublist.map projSkill (List.filter_sublist db.skills),
   List.Sublist.map projProject (List.filter_sublist db.projects),
   List.Sublist.map projWork (List.filter_sublist db.work_experience)⟩

/-- C8. In every 200 response of either endpoint, the `count` field
equals the length of `data`, and every row of `data` carries a `type`
from the four entity kinds together with an `id` that resolves to an
existing row of that entity's table. -/
theorem ok_rows_resolve (q t c l : Option String) (db : Db) :
    (∀ qs n data, (basicSearch q db).1 = Resp.ok qs n data →
      n = data.length ∧ ∀ r ∈ data, rowResolves db r) ∧
    (∀ qs ts cs n data, (advancedSearch q t c l db).1 = AdvResp.ok qs ts cs n data →
      n = data.length ∧ ∀ r ∈ data, rowResolves db r) := by
  constructor
  · intro qs n data h
    cases hq : queryInvalid q with
    | true => simp [basicSearch, hq] at h
    | false =>
      simp [basicSearch, hq] at h
      obtain ⟨h1, h2, h3⟩ := h
      subst h2
      subst h3
      refine ⟨rfl, ?_⟩
      intro r hr
      have hm : r ∈ basicMerged (jsTrim (q.getD "")) db :=
        (sortRows_perm (q.getD "") (basicMerged (jsTrim (q.getD "")) db)).subset hr
      exact mem_basicMerged_resolves hm
  · intro qs ts cs n data h
    cases hq : queryInvalid q with
    | true => simp [advancedSearch, hq] at h
    | false =>
      cases htc : (truthy t && !(validTypes.contains (t.getD ""))) with
      | true =>
        unfold advancedSearch at h
        rw [if_neg (by simp [hq]), if_pos htc] at h
        simp at h
      | false =>
        have hc : ¬((truthy t && !(validTypes.contains (t.getD ""))) = true) := by
          intro hcon
          rw [htc] at hcon
          exact Bool.false_ne_true hcon
        unfold advancedSearch at h
        rw [if_neg (by simp [hq]), if_neg hc] at h
        simp [advOk, advLimited] at h
        obtain ⟨h1, h2, h3, h4, h5⟩ := h
        subst h4
        subst h5
        refine ⟨rfl, ?_⟩
        intro r hr
        exact mem_advResults_resolves (jsSlice_subset _ _ hr)

/-- Witness for C8 on a store with one project titled "React". -/
theorem ok_rows_resolve_witness :
    (1 = ([⟨"project", "React", some "library", some "Project", 1⟩] :
        List SearchRow).length ∧
      ∀ r ∈ ([⟨"project", "React", some "library", some "Project", 1⟩] :
        List SearchRow), rowResolves dbW r) :=
  (ok_rows_resolve (some "React") none none none dbW).1 "React" 1
    [⟨"project", "React", some "library", some "Project", 1⟩] (by decide)

/-- C9. The comparator's exact-match test receives the raw, untrimmed
query while the LIKE pattern uses the trimmed query: whenever the
trimmed query differs from the raw one, a row whose title
case-insensitively equals the trimmed query is not treated as an exact
match. -/
theorem exact_match_uses_raw_query (q : String) (r : SearchRow)
    (h1 : jsTrim q ≠ q) (h2 : lc r.title = lc (jsTrim q)) :
    isExact q r = false := by
  have hlt : (jsTrim q).length < q.length := jsTrim_ne_length_lt q h1
  show (lc r.title == lc q) = false
  rw [h2]
  cases hbeq : (lc (jsTrim q) == lc q) with
  | false => rfl
  | true =>
    exfalso
    have hcon : lc (jsTrim q) = lc q := eq_of_beq hbeq
    have hlen : (lc (jsTrim q)).length = (lc q).length := by rw [hcon]
    rw [lc_length, lc_length] at hlen
    omega

/-- Witness for C9: the padded query " React" is not an exact match for
a row titled exactly "React". -/
theorem exact_match_uses_raw_query_witness :
    isExact " React" ⟨"project", "React", some "d", some "Project", 1⟩ = false :=
  exact_match_uses_raw_query " React"
    ⟨"project", "React", some "d", some "Project", 1⟩ (by decide) (by decide)

/-- C10. When the `limit` parameter is present but does not parse to an
integer (`parseInt` gives NaN), the advanced endpoint still responds
200 but with an empty `data` array and count 0, whatever the store
contains. -/
theorem nan_limit_empty_result (q : String) (t c : Option String) (s : String)
    (db : Db) (hq : queryInvalid (some q) = false)
    (ht : (truthy t && !(validTypes.contains (t.getD ""))) = false)
    (hs : parseIntJS s = none) :
    advStatus (advancedSearch (some q) t c (some s) db).1 = 200 ∧
    advData (advancedSearch (some q) t c (some s) db).1 = [] ∧
    advCount (advancedSearch (some q) t c (some s) db).1 = 0 := by
  rw [advancedSearch_fst q t c (some s) db hq ht]
  simp [advOk, advStatus, advData, advCount, advLimited, hs, jsSlice]

/-- Witness for C10: limit="abc" on a store with one matching project
yields a 200 response with no data. -/
theorem nan_limit_empty_result_witness :
    advStatus (advancedSearch (some "React") none none (some "abc") dbW).1 = 200 ∧
    advData (advancedSearch (some "React") none none (some "abc") dbW).1 = [] ∧
    advCount (advancedSearch (some "React") none none (some "abc") dbW).1 = 0 :=
  nan_limit_empty_result "React" none none "abc" dbW
    (by decide) (by decide) (by decide)

end Portfolio
